import Mathlib

/-!
Verification of the availability engine and the conversation orchestration loop of
the scheduling-agent backend (`backend/services/calendar.py`,
`backend/services/agent.py`, `backend/main.py`).

Time model: Python `datetime` values are modelled as natural numbers counting
minutes since `date.min` (0001-01-01); a calendar day has 1440 minutes, `d.date()`
is `d / 1440`, and `datetime(year, month, day, hour, 0, 0)` for the day numbered
`day` is `day * 1440 + hour * 60`.  The Python `date`/`datetime` domain is
bounded: the constructor raises `ValueError` for `hour = 24` or a year past 9999,
and `date`/`datetime` plus `timedelta` raises `OverflowError` when the shifted
date passes `date.max` (9999-12-31, day number `dateMax` here) — both land in the
blanket `except` of `find_free_slots`.  All comparisons in the source are order
comparisons on datetimes, so this abstraction is exact for the slot logic.
-/

/-- A returned free slot: `{"start": ..., "end": ..., "date": ...}` as appended at
`calendar.py` lines 391-395.  The Python key `end` is a Lean keyword, so the field
is named `stop`. -/
structure FreeSlot where
  start : Nat
  stop : Nat
  date : Nat
deriving DecidableEq, Repr

/-- The day number of Python's `date.max` (9999-12-31) when day 0 is `date.min`
(0001-01-01): `date.max.toordinal() - date.min.toordinal() = 3652059 - 1`.
`date`/`datetime` arithmetic whose result would pass this day raises
`OverflowError`. -/
def dateMax : Nat := 3652058

/-- `current_date + timedelta(days=day_offset)` (`calendar.py` line 364): `date`
plus `timedelta` raises `OverflowError` (modelled as `Except.error`) when the
result passes `date.max`. -/
def addDaysDate (current_date day_offset : Nat) : Except Unit Nat :=
  if current_date + day_offset ≤ dateMax then Except.ok (current_date + day_offset)
  else Except.error ()

/-- `now + timedelta(days=days_ahead)` (`calendar.py` line 340): `datetime` plus
a whole-day `timedelta` keeps the time of day and shifts the date by `days`; it
raises `OverflowError` when the shifted date passes `date.max`.  (A `days_ahead`
too large even for `timedelta` itself also raises `OverflowError`; such values
exceed the date range as well, so the same error branch models both.) -/
def addDaysDatetime (dt days : Nat) : Except Unit Nat :=
  if dt / 1440 + days ≤ dateMax then Except.ok (dt + days * 1440)
  else Except.error ()

/-- `datetime(check_date.year, check_date.month, check_date.day, hour, 0, 0)`
(`calendar.py` lines 365-372): succeeds with the minute count of `hour:00` on
that day when `hour ≤ 23` and the day is within the `datetime` domain, raises
`ValueError` (modelled as `Except.error`) otherwise. -/
def mkDatetime (day hour : Nat) : Except Unit Nat :=
  if hour ≤ 23 ∧ day ≤ dateMax then Except.ok (day * 1440 + hour * 60)
  else Except.error ()

/-- The inner `while` loop of `find_free_slots` (`calendar.py` lines 379-397):
slide `slot_start` from its initial value in 30-minute steps while
`slot_start + duration_minutes ≤ day_end`; a candidate is kept iff it fails the
overlap test `not (slot_end <= busy_start or slot_start >= busy_end)` against
every busy interval. -/
def whileSlots (busy_times : List (Nat × Nat)) (duration_minutes check_date day_end : Nat)
    (slot_start : Nat) : List FreeSlot :=
  if slot_start + duration_minutes ≤ day_end then
    let slot_end := slot_start + duration_minutes
    let is_free := busy_times.all (fun b => slot_end ≤ b.1 || b.2 ≤ slot_start)
    (if is_free then [⟨slot_start, slot_end, check_date⟩] else []) ++
      whileSlots busy_times duration_minutes check_date day_end (slot_start + 30)
  else []
termination_by day_end + 1 - slot_start
decreasing_by omega

/-- The `for day_offset in range(days_ahead)` loop of `find_free_slots`
(`calendar.py` lines 363-400): for each day offset, compute
`check_date = current_date + timedelta(days=day_offset)` (which can overflow past
`date.max`), build `day_start`/`day_end` at `start_hour`/`end_hour` on that day,
clamp `day_start` forward to `now` when it is in the past, run the slot scan, and
stop early once 20 free slots have accumulated.  An `OverflowError` from the date
addition or a `ValueError` from the `datetime` constructor aborts the whole
computation (both are caught by the function's blanket `except`). -/
def daysLoop (now : Nat) (busy_times : List (Nat × Nat))
    (duration_minutes start_hour end_hour : Nat) :
    List Nat → List FreeSlot → Except Unit (List FreeSlot)
  | [], free_slots => Except.ok free_slots
  | day_offset :: rest, free_slots =>
    match addDaysDate (now / 1440) day_offset with
    | Except.error _ => Except.error ()
    | Except.ok check_date =>
      match mkDatetime check_date start_hour, mkDatetime check_date end_hour with
      | Except.ok day_start, Except.ok day_end =>
        let day_start := if day_start < now then now else day_start
        let free_slots := free_slots ++
          whileSlots busy_times duration_minutes check_date day_end day_start
        if 20 ≤ free_slots.length then Except.ok free_slots
        else daysLoop now busy_times duration_minutes start_hour end_hour rest free_slots
      | _, _ => Except.error ()

/-- The computational body of the `try` block of `CalendarService.find_free_slots`
(`calendar.py` lines 339-402): compute `end_date = now + timedelta(days=days_ahead)`
at line 340 (which can overflow past `date.max`; its value only parameterises the
event fetch, an external gateway call), then run the day loop over the assembled
busy list and truncate the result to 20 slots (`free_slots[:20]`).  `now` is the
value that `datetime.utcnow()` returned at line 339 — the source reads the system
clock itself; it is an explicit argument here only so that the computation can be
stated.  `busy_times` is the list of `(start, end)` pairs built at lines 349-357
from the fetched events. -/
def find_free_slots_core (now : Nat) (busy_times : List (Nat × Nat))
    (duration_minutes days_ahead start_hour end_hour : Nat) : Except Unit (List FreeSlot) :=
  match addDaysDatetime now days_ahead with
  | Except.error _ => Except.error ()
  | Except.ok _end_date =>
    match daysLoop now busy_times duration_minutes start_hour end_hour
        (List.range days_ahead) [] with
    | Except.ok free_slots => Except.ok (free_slots.take 20)
    | Except.error e => Except.error e

/-- `CalendarService.find_free_slots` (`calendar.py` lines 319-406): the `try`
body, with the blanket `except Exception` handler returning `[]` (lines 404-406). -/
def find_free_slots (now : Nat) (busy_times : List (Nat × Nat))
    (duration_minutes days_ahead start_hour end_hour : Nat) : List FreeSlot :=
  match find_free_slots_core now busy_times duration_minutes days_ahead start_hour end_hour with
  | Except.ok free_slots => free_slots
  | Except.error _ => []

/-- Number of candidate windows the inner `while` loop examines (free or busy):
the loop of `whileSlots` with the filtering removed. -/
def candidateCount (duration_minutes day_end slot_start : Nat) : Nat :=
  if slot_start + duration_minutes ≤ day_end then
    candidateCount duration_minutes day_end (slot_start + 30) + 1
  else 0
termination_by day_end + 1 - slot_start
decreasing_by omega

/-- Candidate windows examined on one day of the scan: the day window at
`start_hour`/`end_hour` on `date(now) + day_offset`, with the start clamped
forward to `now`. -/
def dayCandidates (now duration_minutes start_hour end_hour day_offset : Nat) : Nat :=
  let check_date := now / 1440 + day_offset
  let day_start := check_date * 1440 + start_hour * 60
  let day_end := check_date * 1440 + end_hour * 60
  candidateCount duration_minutes day_end (if day_start < now then now else day_start)

/-- Theoretical maximum number of candidates over the whole scan: the sum of the
per-day candidate counts over all `days_ahead` day offsets. -/
def maxCandidates (now duration_minutes days_ahead start_hour end_hour : Nat) : Nat :=
  ((List.range days_ahead).map (dayCandidates now duration_minutes start_hour end_hour)).sum

/-! ### Structural lemmas about the slot scan -/

lemma whileSlots_mem (busy_times : List (Nat × Nat)) (duration_minutes check_date day_end : Nat)
    (slot_start : Nat) :
    ∀ s ∈ whileSlots busy_times duration_minutes check_date day_end slot_start,
      slot_start ≤ s.start ∧ s.stop = s.start + duration_minutes ∧ s.stop ≤ day_end ∧
      s.date = check_date ∧ ∀ b ∈ busy_times, s.stop ≤ b.1 ∨ b.2 ≤ s.start := by
  induction slot_start using whileSlots.induct busy_times duration_minutes check_date day_end with
  | case1 x hx ih =>
    intro s hs
    rw [whileSlots, if_pos hx] at hs
    rcases List.mem_append.mp hs with hs | hs
    · by_cases hfree : busy_times.all (fun b => x + duration_minutes ≤ b.1 || b.2 ≤ x)
      · rw [if_pos hfree] at hs
        simp only [List.mem_singleton] at hs
        subst hs
        refine ⟨le_refl x, rfl, hx, rfl, ?_⟩
        intro b hb
        have hball := (List.all_eq_true.mp hfree) b hb
        simpa using hball
      · rw [if_neg hfree] at hs
        simp at hs
    · obtain ⟨h1, h2, h3, h4, h5⟩ := ih s hs
      exact ⟨by omega, h2, h3, h4, h5⟩
  | case2 x hx =>
    intro s hs
    rw [whileSlots, if_neg hx] at hs
    simp at hs

lemma whileSlots_length_le (busy_times : List (Nat × Nat))
    (duration_minutes check_date day_end : Nat) (slot_start : Nat) :
    (whileSlots busy_times duration_minutes check_date day_end slot_start).length ≤
      candidateCount duration_minutes day_end slot_start := by
  induction slot_start using whileSlots.induct busy_times duration_minutes check_date day_end with
  | case1 x hx ih =>
    rw [whileSlots, if_pos hx, candidateCount, if_pos hx]
    by_cases hfree : busy_times.all (fun b => x + duration_minutes ≤ b.1 || b.2 ≤ x)
    · simp only [hfree, if_true, List.singleton_append, List.length_cons]
      omega
    · simp only [hfree, Bool.false_eq_true, if_false, List.nil_append]
      omega
  | case2 x hx =>
    rw [whileSlots, if_neg hx, candidateCount, if_neg hx]
    simp

lemma daysLoop_mem (now : Nat) (busy_times : List (Nat × Nat))
    (duration_minutes start_hour end_hour : Nat) :
    ∀ offsets acc result,
      daysLoop now busy_times duration_minutes start_hour end_hour offsets acc =
        Except.ok result →
      ∀ s ∈ result, s ∈ acc ∨ ∃ d, d ∈ offsets ∧
        start_hour ≤ 23 ∧ end_hour ≤ 23 ∧
        s ∈ whileSlots busy_times duration_minutes (now / 1440 + d)
          ((now / 1440 + d) * 1440 + end_hour * 60)
          (if (now / 1440 + d) * 1440 + start_hour * 60 < now then now
           else (now / 1440 + d) * 1440 + start_hour * 60) := by
  intro offsets
  induction offsets with
  | nil =>
    intro acc result h s hs
    simp only [daysLoop] at h
    cases h
    exact Or.inl hs
  | cons day_offset rest ih =>
    intro acc result h s hs
    simp only [daysLoop, addDaysDate, mkDatetime] at h
    by_cases hdd : now / 1440 + day_offset ≤ dateMax
    · rw [if_pos hdd] at h
      simp only at h
      by_cases hsh : start_hour ≤ 23
      · by_cases heh : end_hour ≤ 23
        · rw [if_pos ⟨hsh, hdd⟩, if_pos ⟨heh, hdd⟩] at h
          simp only at h
          set scanned := whileSlots busy_times duration_minutes (now / 1440 + day_offset)
            ((now / 1440 + day_offset) * 1440 + end_hour * 60)
            (if (now / 1440 + day_offset) * 1440 + start_hour * 60 < now then now
             else (now / 1440 + day_offset) * 1440 + start_hour * 60) with hscanned
          by_cases hlen : 20 ≤ (acc ++ scanned).length
          · rw [if_pos hlen] at h
            cases h
            rcases List.mem_append.mp hs with hmem | hmem
            · exact Or.inl hmem
            · exact Or.inr ⟨day_offset, List.mem_cons_self _ _, hsh, heh, hmem⟩
          · rw [if_neg hlen] at h
            rcases ih (acc ++ scanned) result h s hs with hmem | ⟨d, hd, h1, h2, h3⟩
            · rcases List.mem_append.mp hmem with hmem | hmem
              · exact Or.inl hmem
              · exact Or.inr ⟨day_offset, List.mem_cons_self _ _, hsh, heh, hmem⟩
            · exact Or.inr ⟨d, List.mem_cons_of_mem _ hd, h1, h2, h3⟩
        · rw [if_pos ⟨hsh, hdd⟩, if_neg (fun hc => heh hc.1)] at h
          simp at h
      · rw [if_neg (fun hc => hsh hc.1)] at h
        simp at h
    · rw [if_neg hdd] at h
      simp at h

lemma daysLoop_length_le (now : Nat) (busy_times : List (Nat × Nat))
    (duration_minutes start_hour end_hour : Nat) :
    ∀ offsets acc result,
      daysLoop now busy_times duration_minutes start_hour end_hour offsets acc =
        Except.ok result →
      result.length ≤ acc.length +
        (offsets.map (dayCandidates now duration_minutes start_hour end_hour)).sum := by
  intro offsets
  induction offsets with
  | nil =>
    intro acc result h
    simp only [daysLoop] at h
    cases h
    simp
  | cons day_offset rest ih =>
    intro acc result h
    simp only [daysLoop, addDaysDate, mkDatetime] at h
    by_cases hdd : now / 1440 + day_offset ≤ dateMax
    · rw [if_pos hdd] at h
      simp only at h
      by_cases hsh : start_hour ≤ 23
      · by_cases heh : end_hour ≤ 23
        · rw [if_pos ⟨hsh, hdd⟩, if_pos ⟨heh, hdd⟩] at h
          simp only at h
          set scanned := whileSlots busy_times duration_minutes (now / 1440 + day_offset)
            ((now / 1440 + day_offset) * 1440 + end_hour * 60)
            (if (now / 1440 + day_offset) * 1440 + start_hour * 60 < now then now
             else (now / 1440 + day_offset) * 1440 + start_hour * 60) with hscanned
          have hscan_le : scanned.length ≤
              dayCandidates now duration_minutes start_hour end_hour day_offset := by
            rw [hscanned]
            exact whileSlots_length_le _ _ _ _ _
          by_cases hlen : 20 ≤ (acc ++ scanned).length
          · rw [if_pos hlen] at h
            cases h
            simp only [List.length_append, List.map_cons, List.sum_cons]
            omega
          · rw [if_neg hlen] at h
            have := ih (acc ++ scanned) result h
            simp only [List.length_append, List.map_cons, List.sum_cons] at this ⊢
            omega
        · rw [if_pos ⟨hsh, hdd⟩, if_neg (fun hc => heh hc.1)] at h
          simp at h
      · rw [if_neg (fun hc => hsh hc.1)] at h
        simp at h
    · rw [if_neg hdd] at h
      simp at h

lemma find_free_slots_mem (now : Nat) (busy_times : List (Nat × Nat))
    (duration_minutes days_ahead start_hour end_hour : Nat) :
    ∀ s ∈ find_free_slots now busy_times duration_minutes days_ahead start_hour end_hour,
      ∃ d, d < days_ahead ∧
        s ∈ whileSlots busy_times duration_minutes (now / 1440 + d)
          ((now / 1440 + d) * 1440 + end_hour * 60)
          (if (now / 1440 + d) * 1440 + start_hour * 60 < now then now
           else (now / 1440 + d) * 1440 + start_hour * 60) := by
  intro s hs
  unfold find_free_slots find_free_slots_core at hs
  rcases hadd : addDaysDatetime now days_ahead with e | ed
  · rw [hadd] at hs
    simp at hs
  · rw [hadd] at hs
    simp only at hs
    rcases hloop : daysLoop now busy_times duration_minutes start_hour end_hour
        (List.range days_ahead) [] with e | result
    · rw [hloop] at hs
      simp at hs
    · rw [hloop] at hs
      simp only at hs
      have hmem : s ∈ result := List.mem_of_mem_take hs
      rcases daysLoop_mem now busy_times duration_minutes start_hour end_hour
          (List.range days_ahead) [] result hloop s hmem with hnil | ⟨d, hd, _, _, h3⟩
      · simp at hnil
      · exact ⟨d, List.mem_range.mp hd, h3⟩

/-! ### Claim theorems about the availability engine -/

/-- C1: for every list of busy intervals and every scheduling query, every slot
returned by `find_free_slots` overlaps no busy interval, where two half-open
intervals overlap iff `a.start < b.end` and `b.start < a.end` (touching endpoints
do not count as overlap). -/
theorem find_free_slots_no_overlap (now : Nat) (busy_times : List (Nat × Nat))
    (duration_minutes days_ahead start_hour end_hour : Nat) :
    ∀ s ∈ find_free_slots now busy_times duration_minutes days_ahead start_hour end_hour,
      ∀ b ∈ busy_times, ¬(s.start < b.2 ∧ b.1 < s.stop) := by
  intro s hs b hb
  obtain ⟨d, _, hmem⟩ := find_free_slots_mem now busy_times duration_minutes days_ahead
    start_hour end_hour s hs
  obtain ⟨_, _, _, _, h5⟩ := whileSlots_mem _ _ _ _ _ s hmem
  rcases h5 b hb with h | h <;> omega

theorem find_free_slots_no_overlap_witness :
    (⟨540, 600, 0⟩ : FreeSlot) ∈ find_free_slots 0 [(0, 540)] 60 1 9 11 ∧
    ((0, 540) : Nat × Nat) ∈ [((0 : Nat), (540 : Nat))] ∧
    ¬((540 : Nat) < 540 ∧ 0 < 600) := by
  have hmem : (⟨540, 600, 0⟩ : FreeSlot) ∈ find_free_slots 0 [(0, 540)] 60 1 9 11 := by
    simp [find_free_slots, find_free_slots_core, addDaysDatetime, addDaysDate, dateMax,
      daysLoop, mkDatetime, whileSlots, List.range_succ]
  exact ⟨hmem, by simp,
    find_free_slots_no_overlap 0 [(0, 540)] 60 1 9 11 _ hmem (0, 540) (by simp)⟩

/-- C4: the result of `find_free_slots` contains at most 20 slots, and no more
than the number of candidate windows the scan can examine. -/
theorem find_free_slots_cap (now : Nat) (busy_times : List (Nat × Nat))
    (duration_minutes days_ahead start_hour end_hour : Nat) :
    (find_free_slots now busy_times duration_minutes days_ahead start_hour end_hour).length ≤
      min 20 (maxCandidates now duration_minutes days_ahead start_hour end_hour) := by
  unfold find_free_slots find_free_slots_core
  rcases hadd : addDaysDatetime now days_ahead with e | ed
  · simp
  · simp only
    rcases hloop : daysLoop now busy_times duration_minutes start_hour end_hour
        (List.range days_ahead) [] with e | result
    · simp
    · simp only
      have hlen := daysLoop_length_le now busy_times duration_minutes start_hour end_hour
        (List.range days_ahead) [] result hloop
      simp only [List.length_nil, Nat.zero_add] at hlen
      have htake : (result.take 20).length = min 20 result.length :=
        List.length_take 20 result
      unfold maxCandidates
      omega

/-- C5: every slot returned by `find_free_slots` lies inside the working-hours
window of its day, and its start is at least `now` (the instant read from the
clock at entry). -/
theorem find_free_slots_working_hours (now : Nat) (busy_times : List (Nat × Nat))
    (duration_minutes days_ahead start_hour end_hour : Nat) :
    ∀ s ∈ find_free_slots now busy_times duration_minutes days_ahead start_hour end_hour,
      s.date * 1440 + start_hour * 60 ≤ s.start ∧
      s.stop ≤ s.date * 1440 + end_hour * 60 ∧ now ≤ s.start := by
  intro s hs
  obtain ⟨d, _, hmem⟩ := find_free_slots_mem now busy_times duration_minutes days_ahead
    start_hour end_hour s hs
  obtain ⟨h1, h2, h3, h4, _⟩ := whileSlots_mem _ _ _ _ _ s hmem
  rw [h4]
  by_cases hc : (now / 1440 + d) * 1440 + start_hour * 60 < now
  · rw [if_pos hc] at h1
    omega
  · rw [if_neg hc] at h1
    omega

theorem find_free_slots_working_hours_witness :
    (⟨540, 600, 0⟩ : FreeSlot) ∈ find_free_slots 0 [] 60 1 9 11 ∧
    ((0 : Nat) * 1440 + 9 * 60 ≤ 540 ∧ (600 : Nat) ≤ 0 * 1440 + 11 * 60 ∧ (0 : Nat) ≤ 540) := by
  have heq : find_free_slots 0 [] 60 1 9 11 =
      [⟨540, 600, 0⟩, ⟨570, 630, 0⟩, ⟨600, 660, 0⟩] := by
    simp [find_free_slots, find_free_slots_core, addDaysDatetime, addDaysDate, dateMax,
      daysLoop, mkDatetime, whileSlots, List.range_succ]
  have hmem : (⟨540, 600, 0⟩ : FreeSlot) ∈ find_free_slots 0 [] 60 1 9 11 := by
    rw [heq]
    simp
  exact ⟨hmem, find_free_slots_working_hours 0 [] 60 1 9 11 ⟨540, 600, 0⟩ hmem⟩

lemma whileSlots_empty_busy_length (duration_minutes check_date day_end slot_start : Nat) :
    (whileSlots [] duration_minutes check_date day_end slot_start).length =
      candidateCount duration_minutes day_end slot_start := by
  induction slot_start using whileSlots.induct [] duration_minutes check_date day_end with
  | case1 x hx ih =>
    rw [whileSlots, if_pos hx, candidateCount, if_pos hx]
    simpa using ih
  | case2 x hx =>
    rw [whileSlots, if_neg hx, candidateCount, if_neg hx]
    rfl

lemma whileSlots_nine_eleven (check_date base : Nat) :
    whileSlots [] 60 check_date (base + 11 * 60) (base + 9 * 60) =
      [⟨base + 9 * 60, base + 9 * 60 + 60, check_date⟩,
       ⟨base + 9 * 60 + 30, base + 9 * 60 + 30 + 60, check_date⟩,
       ⟨base + 9 * 60 + 30 + 30, base + 9 * 60 + 30 + 30 + 60, check_date⟩] := by
  rw [whileSlots, if_pos (by omega)]
  simp only [List.all_nil, if_true, List.singleton_append]
  rw [whileSlots, if_pos (by omega)]
  simp only [List.all_nil, if_true, List.singleton_append]
  rw [whileSlots, if_pos (by omega)]
  simp only [List.all_nil, if_true, List.singleton_append]
  rw [whileSlots, if_neg (by omega)]

lemma find_free_slots_empty_busy_eval (now : Nat) (h : now % 1440 ≤ 540)
    (hrange : now / 1440 + 1 ≤ dateMax) :
    find_free_slots now [] 60 1 9 11 =
      [⟨now / 1440 * 1440 + 540, now / 1440 * 1440 + 600, now / 1440⟩,
       ⟨now / 1440 * 1440 + 570, now / 1440 * 1440 + 630, now / 1440⟩,
       ⟨now / 1440 * 1440 + 600, now / 1440 * 1440 + 660, now / 1440⟩] := by
  unfold find_free_slots find_free_slots_core
  simp only [addDaysDatetime]
  rw [if_pos hrange]
  simp only
  rw [show List.range 1 = [0] from rfl, daysLoop]
  simp only [addDaysDate]
  rw [if_pos (show now / 1440 + 0 ≤ dateMax by omega)]
  simp only [mkDatetime]
  rw [if_pos ⟨by omega, show now / 1440 + 0 ≤ dateMax by omega⟩,
    if_pos ⟨by omega, show now / 1440 + 0 ≤ dateMax by omega⟩]
  simp only
  rw [if_neg (show ¬((now / 1440 + 0) * 1440 + 9 * 60 < now) by omega)]
  rw [whileSlots_nine_eleven (now / 1440 + 0) ((now / 1440 + 0) * 1440)]
  simp only [List.nil_append, List.length_cons, List.length_nil]
  rw [if_neg (by omega)]
  simp only [daysLoop, List.take, List.cons.injEq, FreeSlot.mk.injEq, and_true,
    List.nil_eq]
  refine ⟨⟨by omega, by omega, by omega⟩, ⟨by omega, by omega, by omega⟩,
    by omega, by omega, by omega⟩

/-- C6: with an empty busy list, `durationMinutes = 60`, `workStartHour = 9`,
`workEndHour = 11`, `daysAhead = 1`, and `now` no later than 09:00 on the query
day (a representable clock instant whose next day is still within Python's
date range, as every `utcnow()` value before 9999-12-31 is), `find_free_slots`
returns exactly the slots 09:00–10:00, 09:30–10:30 and 10:00–11:00 of that day,
in that order; and with an empty busy list every candidate the scan examines is
kept as free. -/
theorem find_free_slots_scenario_empty_busy (now : Nat) (h : now % 1440 ≤ 540)
    (hrange : now / 1440 + 1 ≤ dateMax) :
    find_free_slots now [] 60 1 9 11 =
      [⟨now / 1440 * 1440 + 540, now / 1440 * 1440 + 600, now / 1440⟩,
       ⟨now / 1440 * 1440 + 570, now / 1440 * 1440 + 630, now / 1440⟩,
       ⟨now / 1440 * 1440 + 600, now / 1440 * 1440 + 660, now / 1440⟩] ∧
    ∀ duration_minutes check_date day_end slot_start,
      (whileSlots [] duration_minutes check_date day_end slot_start).length =
        candidateCount duration_minutes day_end slot_start :=
  ⟨find_free_slots_empty_busy_eval now h hrange, whileSlots_empty_busy_length⟩

theorem find_free_slots_scenario_empty_busy_witness :
    ((0 : Nat) % 1440 ≤ 540 ∧ (0 : Nat) / 1440 + 1 ≤ dateMax) ∧
    (find_free_slots 0 [] 60 1 9 11 =
        [⟨540, 600, 0⟩, ⟨570, 630, 0⟩, ⟨600, 660, 0⟩] ∧
      ∀ duration_minutes check_date day_end slot_start,
        (whileSlots [] duration_minutes check_date day_end slot_start).length =
          candidateCount duration_minutes day_end slot_start) :=
  ⟨⟨by decide, by decide⟩, find_free_slots_scenario_empty_busy 0 (by decide) (by decide)⟩

/-- C2 counterexample: the result of `find_free_slots` is not determined by
`(busy, query)` alone — `calendar.py` line 339 reads `datetime.utcnow()` inside
the function, and two runs with identical busy list and identical query
parameters but different clock instants return different slot lists. -/
theorem find_free_slots_not_clock_free :
    find_free_slots 0 [] 60 1 9 11 ≠ find_free_slots 1440 [] 60 1 9 11 := by
  rw [find_free_slots_empty_busy_eval 0 (by decide) (by decide),
    find_free_slots_empty_busy_eval 1440 (by decide) (by decide)]
  decide

/-- C2 (amended): `find_free_slots` is deterministic in the busy list, the query
parameters, and the instant the system clock read returns at entry: equal inputs
(including the clock instant) give identical ordered results.  The clock instant
is read via `datetime.utcnow()` inside the function rather than threaded in by
the caller. -/
theorem find_free_slots_deterministic (now1 now2 : Nat)
    (busy1 busy2 : List (Nat × Nat)) (dur1 dur2 days1 days2 sh1 sh2 eh1 eh2 : Nat)
    (hn : now1 = now2) (hb : busy1 = busy2) (hdur : dur1 = dur2)
    (hdays : days1 = days2) (hsh : sh1 = sh2) (heh : eh1 = eh2) :
    find_free_slots now1 busy1 dur1 days1 sh1 eh1 =
      find_free_slots now2 busy2 dur2 days2 sh2 eh2 := by
  subst hn hb hdur hdays hsh heh
  rfl

theorem find_free_slots_deterministic_witness :
    find_free_slots 0 [(0, 540)] 60 7 9 17 = find_free_slots 0 [(0, 540)] 60 7 9 17 :=
  find_free_slots_deterministic 0 0 [(0, 540)] [(0, 540)] 60 60 7 7 9 9 17 17
    rfl rfl rfl rfl rfl rfl

/-- A function call carried by one response part: `part.function_call` with a
truthy `name` (`agent.py` line 451); the arguments are not needed for the control
flow of the loop, so only the name is kept. -/
structure FunctionCall where
  name : String
deriving DecidableEq, Repr

/-- One element of `response.candidates[0].content.parts`: `function_call` is
`some` exactly when the part carries a function call with a nonempty name, and
`text` is `some` exactly when the part carries nonempty text (the truthiness
checks at `agent.py` lines 451 and 459). -/
structure ResponsePart where
  function_call : Option FunctionCall
  text : Option String
deriving DecidableEq, Repr

/-- The parts of one Model Gateway reply (`response.candidates[0].content.parts`). -/
abbrev ModelResponse := List ResponsePart

/-- The list built at `agent.py` lines 448-452: the function calls of the
current response's parts. -/
def function_calls (parts : ModelResponse) : List FunctionCall :=
  parts.filterMap (fun p => p.function_call)

/-- The list built at `agent.py` lines 456-460 and 481-485: the nonempty text
fragments of the current response's parts. -/
def text_parts (parts : ModelResponse) : List String :=
  parts.filterMap (fun p => p.text)

/-- The `while response.candidates[0].content.parts:` loop of `send_message`
(`agent.py` lines 447-486), driven by a script of Model Gateway replies: each
loop iteration that dispatches tool calls consumes the next script entry as the
reply to `self.chat.send_message(function_responses)` (an `Except.error` entry
is that call raising).  Tool execution itself never raises (`_execute_function`
catches internally) and its results only feed the next model call, which the
script already fixes, so they do not appear here.  `none` means the script was
exhausted while the loop still demanded another model turn — the shape an
unbounded run takes in a model where only finitely many replies can be
observed. -/
def send_message_loop : List (Except String ModelResponse) → ModelResponse →
    Option (Except String String)
  | script, parts =>
    if parts.isEmpty then
      some (Except.ok (if (text_parts parts).isEmpty then "Done!"
        else String.intercalate "\n" (text_parts parts)))
    else if (function_calls parts).isEmpty then
      some (Except.ok (if (text_parts parts).isEmpty then
        "I couldn\x27t process that request."
        else String.intercalate "\n" (text_parts parts)))
    else
      match script with
      | [] => none
      | Except.error e :: _ => some (Except.error e)
      | Except.ok next_parts :: rest => send_message_loop rest next_parts

/-- The `SchedulingAgent` state relevant to the chat lifecycle: the `self.chat`
field.  `none` is Python `None`; `some h` is a live SDK chat session, tracked as
the list of user messages sent on it so far (the SDK owns the full turn
history; only presence and accumulation matter here). -/
structure Agent where
  chat : Option (List String)
deriving DecidableEq, Repr

/-- `SchedulingAgent.start_chat` (`agent.py` lines 426-428): a fresh chat session. -/
def start_chat : Agent := ⟨some []⟩

/-- `SchedulingAgent.reset_chat` (`agent.py` lines 491-493): `self.chat = None`. -/
def reset_chat (_ : Agent) : Agent := ⟨none⟩

/-- The `try` body of `send_message`: the initial `self.chat.send_message(message)`
reply is the head of the script (`Except.error` = that call raising), and the
loop consumes the rest. -/
def send_message_raw (script : List (Except String ModelResponse)) :
    Option (Except String String) :=
  match script with
  | [] => none
  | Except.error e :: _ => some (Except.error e)
  | Except.ok parts :: rest => send_message_loop rest parts

/-- `SchedulingAgent.send_message` (`agent.py` lines 430-489): lazily create the
chat session if absent (outside the `try`), send the user message, run the
tool-call loop, and convert any exception caught by the `except` at line 488
into the reply `"Error: " + str(e)`.  The returned pair is (reply if the run
terminated within the script, updated agent state). -/
def send_message (agent : Agent) (script : List (Except String ModelResponse))
    (message : String) : Option String × Agent :=
  let agent1 := if agent.chat.isNone then start_chat else agent
  let agent2 : Agent := ⟨some (agent1.chat.getD [] ++ [message])⟩
  match send_message_raw script with
  | none => (none, agent2)
  | some (Except.ok reply) => (some reply, agent2)
  | some (Except.error e) => (some ("Error: " ++ e), agent2)

/-- A model reply consisting of a single tool-call part, as issued by a stub
that never converges to text. -/
def tool_call_turn : ModelResponse := [⟨some ⟨"get_today_events"⟩, none⟩]

/-- A model reply consisting of a single text part. -/
def text_turn : ModelResponse := [⟨none, some "All done"⟩]

lemma send_message_loop_all_tool (n : Nat) :
    send_message_loop (List.replicate n (Except.ok tool_call_turn)) tool_call_turn =
      none := by
  induction n with
  | zero => rfl
  | succ n ih =>
    rw [List.replicate_succ]
    exact ih

/-- C3 counterexample: the tool-call loop of `send_message` has no round-trip
cap.  Against a model stub that always returns tool-call turns, a run given 12
consecutive tool-call replies (past the recommended bound of 10) consumes all of
them and still demands another model turn (result `none`) instead of terminating
with a synthetic failure text — and if a 13th reply with text arrives, the loop
happily returns it, showing the turn was still live beyond any bound of 10. -/
theorem send_message_no_loop_bound :
    (send_message ⟨none⟩ (List.replicate 12 (Except.ok tool_call_turn)) "hi").1 =
      none ∧
    (send_message ⟨none⟩
      (List.replicate 12 (Except.ok tool_call_turn) ++ [Except.ok text_turn]) "hi").1 =
      some "All done" := by
  constructor <;> rfl

/-- C3 (amended): `send_message` imposes no cap on tool-call round-trips: a
model stub that always returns tool-call turns keeps the loop demanding further
model turns forever — after consuming any number `n` of tool-call replies the
run has still produced no reply, and no synthetic failure text is ever composed.
When a model turn does arrive without function calls, the loop returns exactly
one text reply (never a partial tool-call artifact). -/
theorem send_message_unbounded_tool_loop :
    (∀ n, (send_message ⟨none⟩ (List.replicate n (Except.ok tool_call_turn)) "hi").1 =
      none) ∧
    ∀ script parts, parts ≠ [] → function_calls parts = [] →
      send_message_loop script parts =
        some (Except.ok (if (text_parts parts).isEmpty then
          "I couldn\x27t process that request."
          else String.intercalate "\n" (text_parts parts))) := by
  constructor
  · intro n
    cases n with
    | zero => rfl
    | succ n =>
      rw [List.replicate_succ]
      simp only [send_message, send_message_raw, send_message_loop_all_tool n]
  · intro script parts hne hfc
    have h1 : parts.isEmpty = false := by simpa [List.isEmpty_iff] using hne
    have h2 : (function_calls parts).isEmpty = true := by
      simpa [List.isEmpty_iff] using hfc
    rw [send_message_loop.eq_def]
    simp only [h1, h2, Bool.false_eq_true, if_false, if_true]

theorem send_message_unbounded_tool_loop_witness :
    (text_turn ≠ [] ∧ function_calls text_turn = []) ∧
    ((send_message ⟨none⟩ (List.replicate 3 (Except.ok tool_call_turn)) "hi").1 =
      none ∧
    send_message_loop [] text_turn =
      some (Except.ok (if (text_parts text_turn).isEmpty then
        "I couldn\x27t process that request."
        else String.intercalate "\n" (text_parts text_turn)))) :=
  ⟨⟨by decide, by decide⟩,
    ⟨(send_message_unbounded_tool_loop).1 3,
      (send_message_unbounded_tool_loop).2 [] text_turn (by decide) (by decide)⟩⟩

/-! ### Tool dispatch (`_execute_function`) -/

/-- A result dictionary of `_execute_function`: every branch returns either a
`{"success": True, ...}` payload (`ok`) or `{"success": False, "error": msg}`
(`err`).  The payload details are opaque to the dispatch logic. -/
inductive ToolResult where
  | ok (payload : String)
  | err (message : String)
deriving DecidableEq, Repr

/-- The function names the `elif` chain of `_execute_function` recognises
(`agent.py` lines 303-418), in source order. -/
def registered_functions : List String :=
  ["get_emails", "get_unread_emails", "get_email_details", "send_email",
   "search_emails", "delete_email", "mark_email_as_read", "get_calendar_events",
   "get_today_events", "get_week_events", "create_calendar_event",
   "update_calendar_event", "delete_calendar_event", "find_free_slots"]

/-- The `try` body of `_execute_function` (`agent.py` lines 302-421): dispatch
on the name.  Each recognised branch calls a gateway service and shapes its
value into a result dictionary; the whole branch body may raise (gateway
errors, `datetime.fromisoformat` on malformed arguments), which the `handlers`
oracle models as `Except.error`.  An unrecognised name falls through to the
`else` branch at lines 420-421 (a string format, which cannot raise). -/
def execute_function_body
    (handlers : String → List (String × String) → Except String ToolResult)
    (function_name : String) (args : List (String × String)) :
    Except String ToolResult :=
  if function_name ∈ registered_functions then handlers function_name args
  else Except.ok (ToolResult.err ("Unknown function: " ++ function_name))

/-- `SchedulingAgent._execute_function` (`agent.py` lines 300-424): the `try`
body wrapped in `except Exception as e`, which converts any raised exception
into `{"success": False, "error": str(e)}`.  The return type is `ToolResult`
(not an exception monad): dispatch always returns a result value. -/
def execute_function
    (handlers : String → List (String × String) → Except String ToolResult)
    (function_name : String) (args : List (String × String)) : ToolResult :=
  match execute_function_body handlers function_name args with
  | Except.ok r => r
  | Except.error e => ToolResult.err e

/-- C7: dispatching a tool invocation always yields a result value — the return
type of `execute_function` is `ToolResult`, so no exception escapes the dispatch
boundary — and moreover: a name outside the registered set yields an error
result naming the unknown tool; a handler that raises during execution has its
exception caught and converted to an error result; a handler that returns
normally has its result passed through. -/
theorem execute_function_never_raises
    (handlers : String → List (String × String) → Except String ToolResult)
    (function_name : String) (args : List (String × String)) :
    (function_name ∉ registered_functions →
      execute_function handlers function_name args =
        ToolResult.err ("Unknown function: " ++ function_name)) ∧
    (∀ e, function_name ∈ registered_functions →
      handlers function_name args = Except.error e →
      execute_function handlers function_name args = ToolResult.err e) ∧
    (∀ r, function_name ∈ registered_functions →
      handlers function_name args = Except.ok r →
      execute_function handlers function_name args = r) := by
  refine ⟨fun hmem => ?_, fun e hmem he => ?_, fun r hmem hr => ?_⟩
  · simp [execute_function, execute_function_body, hmem]
  · simp [execute_function, execute_function_body, hmem, he]
  · simp [execute_function, execute_function_body, hmem, hr]

theorem execute_function_never_raises_witness :
    ("nope" ∉ registered_functions ∧
      execute_function (fun _ _ => Except.error "boom") "nope" [] =
        ToolResult.err ("Unknown function: " ++ "nope")) ∧
    ("get_emails" ∈ registered_functions ∧
      execute_function (fun _ _ => Except.error "boom") "get_emails" [] =
        ToolResult.err "boom") :=
  ⟨⟨by decide,
    (execute_function_never_raises (fun _ _ => Except.error "boom") "nope" []).1
      (by decide)⟩,
   ⟨by decide,
    (execute_function_never_raises (fun _ _ => Except.error "boom") "get_emails" []).2.1
      "boom" (by decide) rfl⟩⟩

/-! ### The chat endpoints (`main.py`) -/

/-- A chat request body as a caller who believes in per-conversation sessions
would send it: a session identifier plus the message.  `main.py` lines 401-413
read only `data.get("message")` from the parsed body; any other field —
including a session identifier — is ignored. -/
structure ChatRequest where
  session_id : String
  message : String
deriving DecidableEq, Repr

/-- The `POST /api/chat` route (`main.py` lines 401-413): forwards the message
of the request body to the single module-level `scheduling_agent`
(`agent.py` line 497); there is no lookup keyed by any session identifier. -/
def api_chat (agent : Agent) (script : List (Except String ModelResponse))
    (req : ChatRequest) : Option String × Agent :=
  send_message agent script req.message

/-- The `POST /api/chat/reset` route (`main.py` lines 416-420): resets the
single module-level agent, for every caller. -/
def api_chat_reset (agent : Agent) : Agent :=
  reset_chat agent

/-- C9 counterexample: there is no per-id session store.  Two chat requests
carrying the distinct session identifiers "session-a" and "session-b" mutate
the one module-level agent — after both, its single chat history holds both
messages, so distinct ids do not get distinct orchestrator states — and a reset
issued for "session-b" leaves the chat field `None`, destroying "session-a"'s
history as well instead of clearing only one session's. -/
theorem session_store_shared_state :
    ("session-a" : String) ≠ "session-b" ∧
    (api_chat (api_chat ⟨none⟩ [Except.ok text_turn] ⟨"session-a", "hi"⟩).2
        [Except.ok text_turn] ⟨"session-b", "yo"⟩).2.chat = some ["hi", "yo"] ∧
    (api_chat_reset
      (api_chat (api_chat ⟨none⟩ [Except.ok text_turn] ⟨"session-a", "hi"⟩).2
        [Except.ok text_turn] ⟨"session-b", "yo"⟩).2).chat = none :=
  ⟨by decide, rfl, rfl⟩

/-- C9 (amended): the server keeps a single process-wide agent.  The chat
endpoint ignores any session identity in the request — two requests with the
same message behave identically whatever identifiers they carry — all callers
therefore share one chat session, which is created lazily by `send_message`
(the state after any call holds a live session); and the reset endpoint clears
the one shared session for everyone by setting the chat field to `None` (the
agent itself stays in place and lazily recreates a session on next use). -/
theorem session_store_single_global (agent : Agent)
    (script : List (Except String ModelResponse)) (r1 r2 : ChatRequest)
    (message : String) (h : r1.message = r2.message) :
    api_chat agent script r1 = api_chat agent script r2 ∧
    (api_chat_reset agent).chat = none ∧
    ((send_message agent script message).2.chat).isSome = true := by
  refine ⟨?_, rfl, ?_⟩
  · unfold api_chat
    rw [h]
  · unfold send_message
    split <;> split <;> simp

theorem session_store_single_global_witness :
    (⟨"a", "hello"⟩ : ChatRequest).message = (⟨"b", "hello"⟩ : ChatRequest).message ∧
    (api_chat ⟨none⟩ [] ⟨"a", "hello"⟩ = api_chat ⟨none⟩ [] ⟨"b", "hello"⟩ ∧
      (api_chat_reset ⟨none⟩).chat = none ∧
      ((send_message ⟨none⟩ [] "hello").2.chat).isSome = true) :=
  ⟨rfl, session_store_single_global ⟨none⟩ [] ⟨"a", "hello"⟩ ⟨"b", "hello"⟩ "hello" rfl⟩

/-- C10: `send_message` never raises to its caller.  Whenever the `try` body —
the initial model call or the tool-execution loop — raises an exception `e`,
the call returns the string `"Error: " + str(e)` instead of propagating it, and
the agent state still holds a live chat session, so the next message proceeds
normally. -/
theorem send_message_catches_exceptions (agent : Agent)
    (script : List (Except String ModelResponse)) (message e : String)
    (h : send_message_raw script = some (Except.error e)) :
    (send_message agent script message).1 = some ("Error: " ++ e) ∧
    ((send_message agent script message).2.chat).isSome = true := by
  unfold send_message
  rw [h]
  simp

theorem send_message_catches_exceptions_witness :
    send_message_raw [Except.error "boom"] = some (Except.error "boom") ∧
    ((send_message ⟨none⟩ [Except.error "boom"] "hi").1 = some ("Error: " ++ "boom") ∧
      ((send_message ⟨none⟩ [Except.error "boom"] "hi").2.chat).isSome = true) :=
  ⟨rfl, send_message_catches_exceptions ⟨none⟩ [Except.error "boom"] "hi" "boom" rfl⟩
